import Mathlib

/-!
Verification of the numeric t-SNE engine of the T-SNE_Visualisation
repository, shallowly embedded over exact rationals.

Conventions of the embedding:
* JavaScript numbers are modelled as rationals; all arithmetic is exact.
* Transcendental library functions (Math.exp, Math.log2, Math.log, 2^x)
  are modelled as an abstract parameter bundle JSMath, since claims about
  the code are structural and hold for an arbitrary interpretation of
  those functions.
* Arrays are lists; out-of-range reads (which the source never performs
  on the verified paths) are modelled by the total getter returning 0.
* Randomness (Math.random / the Box-Muller gaussianRandom helper) is
  modelled as an explicit stream of draws passed to the functions that
  consume it; this is the only stochastic input of the engine.
-/

/-- Matrices are lists of rows of rationals, matching the nested JS arrays. -/
abbrev Mat := List (List ℚ)

/-- Total read of a list entry, 0 out of range (never hit on verified paths). -/
def getv (l : List ℚ) (i : ℕ) : ℚ := l.getD i 0

/-- Total read of a matrix entry. -/
def get2 (m : Mat) (i j : ℕ) : ℚ := getv (m.getD i []) j

/-- Row of length n built from an index function (models Array(n).fill/map). -/
def mkRow (n : ℕ) (f : ℕ → ℚ) : List ℚ := (List.range n).map f

/-- Matrix of shape n x m built from an index function. -/
def mkMat (n m : ℕ) (f : ℕ → ℕ → ℚ) : Mat :=
  (List.range n).map (fun i => mkRow m (f i))

/-- Abstract interpretation of the transcendental JS math functions used by
the engine: Math.exp, Math.log2, Math.pow(2, x) and Math.log. -/
structure JSMath where
  exp : ℚ → ℚ
  log2 : ℚ → ℚ
  pow2 : ℚ → ℚ
  ln : ℚ → ℚ
deriving Inhabited

/-! Source file src/core/math-utils.js -/

/-- squaredEuclideanDistance from math-utils.js: sum over the indices of the
first argument of the squared per-coordinate differences. -/
def squaredEuclideanDistance (a b : List ℚ) : ℚ :=
  ((List.range a.length).map (fun k => (getv a k - getv b k) * (getv a k - getv b k))).sum

/-- computeDistanceMatrix from math-utils.js: zero diagonal, the upper
triangle computed from the points and mirrored into the lower triangle. -/
def computeDistanceMatrix (X : Mat) : Mat :=
  let n := X.length
  mkMat n n (fun i j =>
    if i = j then 0
    else if i < j then squaredEuclideanDistance (X.getD i []) (X.getD j [])
    else squaredEuclideanDistance (X.getD j []) (X.getD i []))

/-- shannonEntropy from math-utils.js: H = -sum p * log2 p over entries
above the 1e-12 guard. -/
def shannonEntropy (M : JSMath) (P : List ℚ) : ℚ :=
  (P.map (fun p => if p > 1e-12 then -(p * M.log2 p) else 0)).sum

/-- entropyToPerplexity from math-utils.js: 2 ^ H. -/
def entropyToPerplexity (M : JSMath) (H : ℚ) : ℚ := M.pow2 H

/-- Unnormalized Gaussian kernel row built by the first loop of
computeConditionalProbabilities: entry j is exp(-distances[j] / 2 sigma^2)
for j distinct from i, and 0 at the self entry i. -/
def condUnnormRow (M : JSMath) (distances : List ℚ) (sigma : ℚ) (i : ℕ) : List ℚ :=
  let twoSigmaSq := 2 * sigma * sigma
  mkRow distances.length (fun j => if j ≠ i then M.exp (-(getv distances j) / twoSigmaSq) else 0)

/-- computeConditionalProbabilities from math-utils.js: the unnormalized
kernel row is divided by its sum only when that sum exceeds 1e-12;
otherwise the row is returned as is. -/
def computeConditionalProbabilities (M : JSMath) (distances : List ℚ) (sigma : ℚ) (i : ℕ) : List ℚ :=
  let P := condUnnormRow M distances sigma i
  let s := P.sum
  if s > 1e-12 then P.map (fun p => p / s) else P

/-- Result record of findSigma from math-utils.js; history entries are
(iteration, sigma, perplexity) tuples. -/
structure SigmaResult where
  sigma : ℚ
  P : List ℚ
  entropy : ℚ
  perplexity : ℚ
  history : List (ℕ × ℚ × ℚ)
deriving DecidableEq

/-- Loop body of findSigma from math-utils.js, with the remaining iteration
budget as structural fuel. The zero-fuel case is the code after the loop:
the probabilities and entropy are recomputed for the current sigma and the
result is returned without any error. -/
def findSigmaGo (M : JSMath) (distances : List ℚ) (i : ℕ) (targetEntropy tol : ℚ)
    (returnHistory : Bool) :
    ℕ → ℕ → ℚ → ℚ → ℚ → List (ℕ × ℚ × ℚ) → SigmaResult
  | 0, _iter, _sigmaMin, _sigmaMax, sigma, history =>
    let P := computeConditionalProbabilities M distances sigma i
    let entropy := shannonEntropy M P
    { sigma := sigma, P := P, entropy := entropy,
      perplexity := entropyToPerplexity M entropy, history := history }
  | fuel + 1, iter, sigmaMin, sigmaMax, sigma, history =>
    let P := computeConditionalProbabilities M distances sigma i
    let entropy := shannonEntropy M P
    let perplexity := entropyToPerplexity M entropy
    let history' := if returnHistory then history ++ [(iter, sigma, perplexity)] else history
    let entropyDiff := entropy - targetEntropy
    if |entropyDiff| < tol then
      { sigma := sigma, P := P, entropy := entropy, perplexity := perplexity,
        history := history' }
    else if entropyDiff > 0 then
      findSigmaGo M distances i targetEntropy tol returnHistory
        fuel (iter + 1) sigmaMin sigma ((sigmaMin + sigma) / 2) history'
    else
      let sigmaMid := (sigma + sigmaMax) / 2
      let sigmaNext := if sigmaMax = 1e10 then sigmaMid * 2 else sigmaMid
      findSigmaGo M distances i targetEntropy tol returnHistory
        fuel (iter + 1) sigma sigmaMax sigmaNext history'

/-- findSigma from math-utils.js: binary search on entropy starting from the
bracket (1e-10, 1e10) and guess sigma = 1. The default call has
maxIter = 50 and tol = 1e-5. -/
def findSigma (M : JSMath) (dm : Mat) (i : ℕ) (targetPerplexity : ℚ)
    (returnHistory : Bool) (maxIter : ℕ) (tol : ℚ) : SigmaResult :=
  findSigmaGo M (dm.getD i []) i (M.log2 targetPerplexity) tol returnHistory
    maxIter 0 1e-10 1e10 1 []

/-- Unnormalized Student-t kernel matrix of computeQMatrix from
math-utils.js: upper triangle computed, mirrored, zero diagonal. -/
def computeQunnorm (Y : Mat) : Mat :=
  let n := Y.length
  mkMat n n (fun i j =>
    if i = j then 0
    else if i < j then 1 / (1 + squaredEuclideanDistance (Y.getD i []) (Y.getD j []))
    else 1 / (1 + squaredEuclideanDistance (Y.getD j []) (Y.getD i [])))

/-- Normalization constant of computeQMatrix: each upper-triangle kernel
value counted twice. -/
def qSum (Y : Mat) : ℚ :=
  let n := Y.length
  ((List.range n).map (fun i =>
    ((List.range n).map (fun j =>
      if i < j then 2 * get2 (computeQunnorm Y) i j else 0)).sum)).sum

/-- computeQMatrix from math-utils.js: normalized Student-t similarities,
floored at 1e-12 off the diagonal, zero diagonal. -/
def computeQMatrix (Y : Mat) : Mat :=
  let n := Y.length
  let Qunnorm := computeQunnorm Y
  let s := qSum Y
  mkMat n n (fun i j => if i ≠ j then max (get2 Qunnorm i j / s) 1e-12 else 0)

/-- klDivergence from math-utils.js: sum of P_ij * log(P_ij / Q_ij) over
off-diagonal entries whose P value exceeds 1e-12. -/
def klDivergence (M : JSMath) (P Q : Mat) : ℚ :=
  let n := P.length
  ((List.range n).map (fun i =>
    ((List.range n).map (fun j =>
      if i ≠ j ∧ get2 P i j > 1e-12
      then get2 P i j * M.ln (get2 P i j / get2 Q i j) else 0)).sum)).sum

/-- computeGradient from math-utils.js: four times the (P - Q) weighted,
Student-t damped coordinate differences, accumulated over the other points. -/
def computeGradient (P Q Y : Mat) : Mat :=
  let n := Y.length
  let d := (Y.getD 0 []).length
  mkMat n d (fun i dim =>
    ((List.range n).map (fun j =>
      if i ≠ j then
        4 * (get2 P i j - get2 Q i j)
          * (1 / (1 + squaredEuclideanDistance (Y.getD i []) (Y.getD j [])))
          * (get2 Y i dim - get2 Y j dim)
      else 0)).sum)

/-- initializeEmbedding from math-utils.js, with the Math.random draws made
explicit as a stream r consumed left to right: entry (i, j) uses draw
number i * d + j and is scaled into (-scale, scale). -/
def initEmbedding (r : ℕ → ℚ) (n d : ℕ) (scale : ℚ) : Mat :=
  mkMat n d (fun i j => (r (i * d + j) - 0.5) * 2 * scale)

/-! Source file src/core/precomputed-tsne.js (PrecomputedTSNE class). -/

/-- Step identifiers of the TSNESteps enum in precomputed-tsne.js, in
declaration order. -/
inductive StepType where
  | intro
  | inputData
  | computeDistances
  | computeSigmas
  | computePConditional
  | symmetrizeP
  | earlyExaggeration
  | initEmbedding
  | computeQ
  | computeGradient
  | updateEmbedding
  | iterationProgress
  | removeExaggeration
  | finalResult
deriving DecidableEq

/-- Per-iteration snapshot pushed by the capture branch of the
optimization loop. -/
structure IterSnap where
  iteration : ℕ
  embedding : Mat
  Q : Mat
  gradient : Mat
  cost : ℚ
deriving DecidableEq

/-- Payload of a step snapshot; one constructor per step, carrying the
fields that the JS run method stores (deep copies are identities in the
pure model). The presentation-only info field (title strings looked up
from the stepType) is a pure function of the step type and is omitted. -/
inductive SnapData where
  | intro (n inputDim targetDim : ℕ) (perplexity : ℚ)
  | inputData (points : Mat) (labels : List ℤ) (n dim : ℕ)
  | computeDistances (distanceMatrix : Mat) (minDist : WithTop ℚ) (maxDist avgDist : ℚ)
  | computeSigmas (sigmas : List ℚ) (perplexity : ℚ)
      (searchHistory : List (ℕ × List (ℕ × ℚ × ℚ))) (avgSigma : ℚ)
  | computePConditional (P_conditional : Mat) (exampleRow : ℕ × List ℚ × ℚ)
  | symmetrizeP (P : Mat) (P_conditional : Mat)
  | earlyExaggeration (P_exaggerated : Mat) (P_original : Mat) (exaggerationFactor : ℚ)
  | initEmbedding (embedding : Mat) (targetDim : ℕ)
  | computeQ (Q : Mat) (embedding : Mat)
  | computeGradient (gradient : Mat) (P : Mat) (Q : Mat) (embedding : Mat)
  | updateEmbedding (embedding : Mat) (gradient : Mat) (learningRate : ℚ)
  | iterationProgress (iterations : List IterSnap) (costs : List ℚ) (totalIterations : ℕ)
  | removeExaggeration (iteration : ℕ) (embedding : Mat) (P : Mat)
  | finalResult (embedding : Mat) (finalCost : ℚ) (costs : List ℚ) (labels : List ℤ)
deriving DecidableEq

/-- One entry of the snapshots array pushed by addSnapshot. -/
structure Snapshot where
  stepId : ℕ
  stepType : StepType
  data : SnapData
  labels : List ℤ
  inputData : Mat
deriving DecidableEq

namespace PrecomputedTSNE

/-- Constructor options of PrecomputedTSNE that the run method reads. The
momentum constants are not options: the constructor hardwires them. -/
structure Cfg where
  perplexity : ℚ
  learningRate : ℚ
  maxIterations : ℕ
  targetDim : ℕ
  earlyExaggeration : ℚ
  earlyExaggerationIter : ℕ
deriving DecidableEq

/-- this.momentum, hardwired to 0.5 in the constructor. -/
def momentum : ℚ := 0.5

/-- this.finalMomentum, hardwired to 0.8 in the constructor. -/
def finalMomentum : ℚ := 0.8

/-- this.momentumSwitchIter, hardwired to 250 in the constructor. -/
def momentumSwitchIter : ℕ := 250

/-- computeAllSigmas: one findSigma call per point with returnHistory on
(default maxIter 50 and tol 1e-5), collecting every sigma and the search
history of the first three points only. -/
def computeAllSigmas (M : JSMath) (D : Mat) (n : ℕ) (perplexity : ℚ) :
    List ℚ × List (ℕ × List (ℕ × ℚ × ℚ)) :=
  ((List.range n).map (fun i => (findSigma M D i perplexity true 50 1e-5).sigma),
   ((List.range n).filter (fun i => i < 3)).map
     (fun i => (i, (findSigma M D i perplexity true 50 1e-5).history)))

/-- computeConditionalP of PrecomputedTSNE: row i applies the kernel
exp(-dist * dist / (2 sigma_i^2)) to the entries dist of the squared
distance matrix (squaring them a second time), zero at the diagonal, then
divides the whole row by its sum when that sum is positive. -/
def computeConditionalP (M : JSMath) (D : Mat) (sigmas : List ℚ) (n : ℕ) : Mat :=
  (List.range n).map (fun i =>
    let sigma := getv sigmas i
    let sigma2 := 2 * sigma * sigma
    let row := (List.range n).map (fun j =>
      if i ≠ j then M.exp (-(get2 D i j * get2 D i j) / sigma2) else 0)
    let s := row.sum
    if s > 0 then row.map (fun p => p / s) else row)

/-- Mirroring loop of symmetrizeP: upper triangle set to the averaged
conditionals over 2n, mirrored, zero diagonal. -/
def symmetrizeRaw (Pc : Mat) (n : ℕ) : Mat :=
  mkMat n n (fun i j =>
    if i = j then 0 else (get2 Pc i j + get2 Pc j i) / (2 * (n : ℚ)))

/-- symmetrizeP of PrecomputedTSNE: the mirrored average followed by the
floor of every entry (diagonal included) at minP = 1e-12. -/
def symmetrizeP (Pc : Mat) (n : ℕ) : Mat :=
  let P := symmetrizeRaw Pc n
  mkMat n n (fun i j => max (get2 P i j) 1e-12)

/-- applyEarlyExaggeration: every entry of P multiplied in place by the
exaggeration factor. -/
def applyEarlyExaggeration (P : Mat) (n : ℕ) (factor : ℚ) : Mat :=
  mkMat n n (fun i j => get2 P i j * factor)

/-- removeEarlyExaggeration: every entry of P overwritten with the retained
P_original entry; the current P values are ignored. -/
def removeEarlyExaggeration (P_original : Mat) (n : ℕ) : Mat :=
  mkMat n n (fun i j => get2 P_original i j)

/-- initializeEmbedding of PrecomputedTSNE, with the Box-Muller
gaussianRandom draws made explicit as a stream r consumed left to right:
entry (i, d) is draw number i * targetDim + d times the 0.0001 scale. -/
def initEmbedding (r : ℕ → ℚ) (n targetDim : ℕ) : Mat :=
  mkMat n targetDim (fun i d => r (i * targetDim + d) * 0.0001)

/-- Momentum used at a given iteration: the lower constant before the
switch iteration, the higher constant from it on. -/
def momentumAt (iteration : ℕ) : ℚ :=
  if iteration < momentumSwitchIter then momentum else finalMomentum

/-- Velocity update loop of updateEmbedding: velocity scaled by the
scheduled momentum minus the learning-rate scaled gradient. -/
def velocityStep (learningRate : ℚ) (iteration : ℕ) (velocity gradient : Mat)
    (n targetDim : ℕ) : Mat :=
  mkMat n targetDim (fun i d =>
    momentumAt iteration * get2 velocity i d - learningRate * get2 gradient i d)

/-- Position update loop of updateEmbedding: each coordinate incremented by
the new velocity. -/
def addVelocity (embedding velocityNew : Mat) (n targetDim : ℕ) : Mat :=
  mkMat n targetDim (fun i d => get2 embedding i d + get2 velocityNew i d)

/-- Sum of column d over the first n rows. -/
def colSum (Y : Mat) (n d : ℕ) : ℚ :=
  ((List.range n).map (fun i => get2 Y i d)).sum

/-- Centering loop of updateEmbedding: the per-dimension mean over all
points subtracted from every coordinate of that dimension. -/
def centerColumns (Y : Mat) (n targetDim : ℕ) : Mat :=
  mkMat n targetDim (fun i d => get2 Y i d - colSum Y n d / (n : ℚ))

/-- updateEmbedding of PrecomputedTSNE: velocity update, position update,
then centering; returns the new velocity and the new embedding. -/
def updateEmbedding (learningRate : ℚ) (iteration : ℕ)
    (velocity embedding gradient : Mat) (n targetDim : ℕ) : Mat × Mat :=
  let v := velocityStep learningRate iteration velocity gradient n targetDim
  let Y := addVelocity embedding v n targetDim
  (v, centerColumns Y n targetDim)

/-- getMinNonZeroDist: minimum off-diagonal distance entry, starting from
Infinity (the top element in the model). -/
def minNonZeroDist (D : Mat) (n : ℕ) : WithTop ℚ :=
  ((List.range n).map (fun i =>
    ((List.range n).map (fun j =>
      if i ≠ j then ((get2 D i j : ℚ) : WithTop ℚ) else ⊤)).foldr min ⊤)).foldr min ⊤

/-- getMaxDist: maximum distance entry, starting from 0. -/
def maxDist (D : Mat) (n : ℕ) : ℚ :=
  ((List.range n).map (fun i =>
    ((List.range n).map (fun j => get2 D i j)).foldr max 0)).foldr max 0

/-- getAvgDist: mean of the strict upper triangle; the pair count of the
loop equals n(n-1)/2. -/
def avgDist (D : Mat) (n : ℕ) : ℚ :=
  let s := ((List.range n).map (fun i =>
    ((List.range n).map (fun j => if i < j then get2 D i j else 0)).sum)).sum
  s / ((n * (n - 1) / 2 : ℕ) : ℚ)

/-- Iteration numbers at which the optimization loop captures an extra
embedding snapshot. -/
def captureIterations (maxIterations : ℕ) : List ℕ :=
  [0, 5, 10, 25, 50, 75, 100, 150, 200, 300, 400, maxIterations - 1]

/-- Mutable state threaded through the optimization loop of runIterations. -/
structure IterState where
  P : Mat
  velocity : Mat
  embedding : Mat
  Q : Mat
  gradient : Mat
  costs : List ℚ
  keyIters : List IterSnap
deriving DecidableEq

/-- Body of the optimization loop in runIterations: exaggeration removal at
the configured iteration, then Q, gradient, embedding update, cost, and the
optional capture of a key-iteration snapshot. -/
def iterStep (M : JSMath) (cfg : Cfg) (n : ℕ) (P_original : Mat)
    (st : IterState) (iter : ℕ) : IterState :=
  let P := if iter = cfg.earlyExaggerationIter
    then removeEarlyExaggeration P_original n else st.P
  let Q := computeQMatrix st.embedding
  let gradient := computeGradient P Q st.embedding
  let vY := updateEmbedding cfg.learningRate iter st.velocity st.embedding gradient
    n cfg.targetDim
  let cost := klDivergence M P Q
  let snap : IterSnap :=
    { iteration := iter, embedding := vY.2, Q := Q, gradient := gradient,
      cost := cost }
  let keyIters := if iter ∈ captureIterations cfg.maxIterations then
      st.keyIters ++ [snap]
    else st.keyIters
  { P := P, velocity := vY.1, embedding := vY.2, Q := Q, gradient := gradient,
    costs := st.costs ++ [cost], keyIters := keyIters }

/-- runIterations: the loop body applied for iter = 1 to maxIterations - 1. -/
def runIterations (M : JSMath) (cfg : Cfg) (n : ℕ) (P_original : Mat)
    (st0 : IterState) : IterState :=
  (List.range' 1 (cfg.maxIterations - 1)).foldl (iterStep M cfg n P_original) st0

/-- addSnapshot applied to a fresh instance: consecutive stepId values
starting at 0, with the labels and input points copied into every entry. -/
def numberSnapshots (labels : List ℤ) (inputData : Mat)
    (l : List (StepType × SnapData)) : List Snapshot :=
  l.mapIdx (fun idx td =>
    { stepId := idx, stepType := td.1, data := td.2,
      labels := labels, inputData := inputData })

/-- Outputs of a run that the claims inspect: the snapshot sequence, the
cost history and the final embedding. -/
structure RunResult where
  snapshots : List Snapshot
  costs : List ℚ
  embedding : Mat
deriving DecidableEq

/-- Body of PrecomputedTSNE.run for a fresh instance, with the initial
embedding (the only randomness) passed in explicitly. -/
def runCore (M : JSMath) (cfg : Cfg) (inputData : Mat) (labels : List ℤ)
    (embedding0 : Mat) : RunResult :=
  let n := inputData.length
  let inputDim := (inputData.getD 0 []).length
  let D := computeDistanceMatrix inputData
  let sigmaResult := computeAllSigmas M D n cfg.perplexity
  let sigmas := sigmaResult.1
  let Pc := computeConditionalP M D sigmas n
  let P0 := symmetrizeP Pc n
  let P_original := P0
  let P1 := applyEarlyExaggeration P0 n cfg.earlyExaggeration
  let velocity0 : Mat := mkMat n cfg.targetDim (fun _ _ => 0)
  let Q0 := computeQMatrix embedding0
  let grad0 := computeGradient P1 Q0 embedding0
  let vY1 := updateEmbedding cfg.learningRate 0 velocity0 embedding0 grad0
    n cfg.targetDim
  let st0 : IterState :=
    { P := P1, velocity := vY1.1, embedding := vY1.2, Q := Q0,
      gradient := grad0, costs := [], keyIters := [] }
  let stF := runIterations M cfg n P_original st0
  let removeEmbed := ((stF.keyIters.find?
    (fun s => cfg.earlyExaggerationIter ≤ s.iteration)).map
      IterSnap.embedding).getD stF.embedding
  { snapshots := numberSnapshots labels inputData [
      (StepType.intro, SnapData.intro n inputDim cfg.targetDim cfg.perplexity),
      (StepType.inputData, SnapData.inputData inputData labels n inputDim),
      (StepType.computeDistances, SnapData.computeDistances D
        (minNonZeroDist D n) (maxDist D n) (avgDist D n)),
      (StepType.computeSigmas, SnapData.computeSigmas sigmas cfg.perplexity
        sigmaResult.2 (sigmas.sum / (n : ℚ))),
      (StepType.computePConditional, SnapData.computePConditional Pc
        (0, Pc.getD 0 [], getv sigmas 0)),
      (StepType.symmetrizeP, SnapData.symmetrizeP P0 Pc),
      (StepType.earlyExaggeration, SnapData.earlyExaggeration P1 P_original
        cfg.earlyExaggeration),
      (StepType.initEmbedding, SnapData.initEmbedding embedding0 cfg.targetDim),
      (StepType.computeQ, SnapData.computeQ Q0 embedding0),
      (StepType.computeGradient, SnapData.computeGradient grad0 P1 Q0 embedding0),
      (StepType.updateEmbedding, SnapData.updateEmbedding vY1.2 grad0
        cfg.learningRate),
      (StepType.iterationProgress, SnapData.iterationProgress stF.keyIters
        stF.costs cfg.maxIterations),
      (StepType.removeExaggeration, SnapData.removeExaggeration
        cfg.earlyExaggerationIter removeEmbed P_original),
      (StepType.finalResult, SnapData.finalResult stF.embedding
        (stF.costs.getD (stF.costs.length - 1) 0) stF.costs labels)],
    costs := stF.costs,
    embedding := stF.embedding }

/-- PrecomputedTSNE.run on a fresh instance: the gaussian draws of the
initial embedding are the only consumption of randomness. -/
def run (M : JSMath) (cfg : Cfg) (inputData : Mat) (labels : List ℤ)
    (rand : ℕ → ℚ) : RunResult :=
  runCore M cfg inputData labels (initEmbedding rand inputData.length cfg.targetDim)

end PrecomputedTSNE

/-! Source file src/core/tsne.js (TSNE class). Several of the call sites
inside this class pass arguments to the math-utils functions in the wrong
order; the methods the claims cite are modelled as written. -/

namespace TSNE

/-- Default momentum of the TSNE constructor (options.momentum with
default 0.8); there is no second momentum value and no switch iteration. -/
def defaultMomentum : ℚ := 0.8

/-- symmetrizeP of the TSNE class: the mirrored average over 2n with zero
diagonal; no epsilon floor is applied. -/
def symmetrizeP (Pcond : Mat) (n : ℕ) : Mat :=
  mkMat n n (fun i j =>
    if i = j then 0 else (get2 Pcond i j + get2 Pcond j i) / (2 * (n : ℚ)))

/-- applyExaggeration of the TSNE class: every entry multiplied by the
factor. -/
def applyExaggeration (P : Mat) (n : ℕ) (factor : ℚ) : Mat :=
  mkMat n n (fun i j => get2 P i j * factor)

/-- removeExaggeration of the TSNE class: every entry divided by the
factor. -/
def removeExaggeration (P : Mat) (n : ℕ) (factor : ℚ) : Mat :=
  mkMat n n (fun i j => get2 P i j / factor)

/-- updateEmbedding of the TSNE class: a single constant momentum applied
to the difference from the previous embedding, no velocity array and no
centering; Yprev then becomes the old Y. -/
def updateEmbedding (learningRate mom : ℚ) (Y Yprev gradient : Mat)
    (n targetDim : ℕ) : Mat :=
  mkMat n targetDim (fun i d =>
    get2 Y i d - learningRate * get2 gradient i d
      + mom * (get2 Y i d - get2 Yprev i d))

end TSNE

/-! Definitions stated from the specification, for comparison with the
source functions. -/

/-- Conditional-probability row as the specification states it, for
comparison: the kernel value exp(-d_ij^2 / 2 sigma_i^2) applied to the
entries of the squared distance row (each entry already being a squared
Euclidean distance), the self entry excluded from the numerator and from
the normalization sum, and the self probability zero. -/
def specCondRow (M : JSMath) (distances : List ℚ) (sigma : ℚ) (i : ℕ) : List ℚ :=
  let g := fun j => M.exp (-(getv distances j) / (2 * sigma * sigma))
  let s := ((List.range distances.length).map
    (fun k => if k ≠ i then g k else 0)).sum
  mkRow distances.length (fun j => if j ≠ i then g j / s else 0)

/-- Mean of column d over the first n rows. -/
def colMean (Y : Mat) (n d : ℕ) : ℚ := PrecomputedTSNE.colSum Y n d / (n : ℚ)

/-- Concrete interpretation of the transcendental functions used for the
closed evaluations: a positive, injective-on-nonpositives stand-in for exp
and the identity for the logarithms. -/
def rationalKernel : JSMath :=
  { exp := fun q => 1 / (1 - q), log2 := fun q => q, pow2 := fun q => q,
    ln := fun q => q }

/-- Interpretation whose exp is the tiny positive constant 1e-13,
realizing the regime where a whole kernel row sums below the 1e-12
normalization guard while every off-diagonal kernel value is nonzero. -/
def tinyKernel : JSMath :=
  { exp := fun _ => 1e-13, log2 := fun q => q, pow2 := fun q => q,
    ln := fun q => q }

/-- Interpretation by constant zero functions, used for witnesses that
only exercise control flow. -/
def zeroKernel : JSMath :=
  { exp := fun _ => 0, log2 := fun _ => 0, pow2 := fun _ => 0,
    ln := fun _ => 0 }

/-- Small concrete configuration used by the closed run instances. -/
def sampleCfg : PrecomputedTSNE.Cfg :=
  { perplexity := 2, learningRate := 200, maxIterations := 2, targetDim := 2,
    earlyExaggeration := 4, earlyExaggerationIter := 1 }

/-! Scaffolding lemmas. -/

theorem getv_mkRow (n : ℕ) (f : ℕ → ℚ) (j : ℕ) :
    getv (mkRow n f) j = if j < n then f j else 0 := by
  by_cases h : j < n
  · simp [getv, mkRow, List.getD_eq_getElem?_getD, List.getElem?_map,
      List.getElem?_range h, h]
  · have hnone : (List.range n)[j]? = none :=
      List.getElem?_eq_none (by simpa using Nat.le_of_not_lt h)
    simp [getv, mkRow, List.getD_eq_getElem?_getD, List.getElem?_map, hnone, h]

theorem get2_mkMat (n m : ℕ) (f : ℕ → ℕ → ℚ) (i j : ℕ) :
    get2 (mkMat n m f) i j = if i < n ∧ j < m then f i j else 0 := by
  by_cases hi : i < n
  · have : (mkMat n m f).getD i [] = mkRow m (f i) := by
      simp [mkMat, List.getD_eq_getElem?_getD, List.getElem?_map,
        List.getElem?_range hi]
    rw [get2, this, getv_mkRow]
    by_cases hj : j < m <;> simp [hi, hj]
  · have hnone : (List.range n)[i]? = none :=
      List.getElem?_eq_none (by simpa using Nat.le_of_not_lt hi)
    have hrow : (mkMat n m f).getD i [] = [] := by
      simp [mkMat, List.getD_eq_getElem?_getD, List.getElem?_map, hnone]
    show getv ((mkMat n m f).getD i []) j = _
    rw [hrow]
    simp [getv, hi]

theorem sum_map_sub_const (l : List ℕ) (f : ℕ → ℚ) (c : ℚ) :
    (l.map (fun x => f x - c)).sum = (l.map f).sum - l.length * c := by
  induction l with
  | nil => simp
  | cons a t ih => simp [ih]; ring

theorem colSum_centerColumns (Y : Mat) (n targetDim d : ℕ) (hn : 1 ≤ n) :
    PrecomputedTSNE.colSum (PrecomputedTSNE.centerColumns Y n targetDim) n d = 0 := by
  have hne : ((n : ℚ)) ≠ 0 := by
    have : 0 < n := Nat.lt_of_lt_of_le Nat.zero_lt_one hn
    exact_mod_cast Nat.pos_iff_ne_zero.mp this
  by_cases hd : d < targetDim
  · have hcongr : (List.range n).map
        (fun i => get2 (PrecomputedTSNE.centerColumns Y n targetDim) i d)
        = (List.range n).map
          (fun i => get2 Y i d - PrecomputedTSNE.colSum Y n d / (n : ℚ)) := by
      apply List.map_congr_left
      intro i hi
      have hin : i < n := List.mem_range.mp hi
      simp [PrecomputedTSNE.centerColumns, get2_mkMat, hin, hd]
    rw [PrecomputedTSNE.colSum, hcongr, sum_map_sub_const]
    rw [List.length_range]
    rw [show ((List.range n).map fun i => get2 Y i d).sum
      = PrecomputedTSNE.colSum Y n d from rfl]
    field_simp
  · have hcongr : (List.range n).map
        (fun i => get2 (PrecomputedTSNE.centerColumns Y n targetDim) i d)
        = (List.range n).map (fun _ => (0 : ℚ)) := by
      apply List.map_congr_left
      intro i _
      simp [PrecomputedTSNE.centerColumns, get2_mkMat, hd]
    rw [PrecomputedTSNE.colSum, hcongr]
    simp

/-- C2 (amended): after every PrecomputedTSNE embedding update the mean of
each dimension of the embedding across all points is exactly zero, because
the update ends by subtracting the per-dimension mean from every
coordinate. The claim as stated asserts this for both engine classes; the
TSNE class applies no centering and is refuted by c2_counterexample. -/
theorem c2_precomputed_centering (learningRate : ℚ) (iteration n targetDim : ℕ)
    (velocity embedding gradient : Mat) (d : ℕ) (hn : 1 ≤ n) :
    colMean ((PrecomputedTSNE.updateEmbedding learningRate iteration velocity
      embedding gradient n targetDim).2) n d = 0 := by
  have h : (PrecomputedTSNE.updateEmbedding learningRate iteration velocity
      embedding gradient n targetDim).2
      = PrecomputedTSNE.centerColumns
        (PrecomputedTSNE.addVelocity embedding
          (PrecomputedTSNE.velocityStep learningRate iteration velocity gradient
            n targetDim) n targetDim) n targetDim := rfl
  rw [colMean, h, colSum_centerColumns _ _ _ _ hn, zero_div]

/-- C2 counterexample: the TSNE class update applies no centering; from
embedding [[1]], previous embedding [[0]] and zero gradient, with the
default learning rate 200 and default momentum 0.8, the updated
single-point embedding is [[9/5]], whose dimension-0 mean is 9/5, not 0. -/
theorem c2_counterexample :
    colMean (TSNE.updateEmbedding 200 TSNE.defaultMomentum [[1]] [[0]] [[0]] 1 1) 1 0
      = 9 / 5 ∧ (9 / 5 : ℚ) ≠ 0 := by
  constructor
  · norm_num [colMean, PrecomputedTSNE.colSum, TSNE.updateEmbedding,
      TSNE.defaultMomentum, mkMat, mkRow, get2, getv, List.range_succ]
  · norm_num

/-- C2 witness: the centering theorem applied to a concrete one-point
update. -/
theorem c2_witness :
    1 ≤ 1 ∧ colMean ((PrecomputedTSNE.updateEmbedding 200 0 [[0]] [[1]] [[1]]
      1 1).2) 1 0 = 0 :=
  ⟨le_refl 1, c2_precomputed_centering 200 0 1 1 [[0]] [[1]] [[1]] 0 (le_refl 1)⟩

/-- C6 (amended): when the unnormalized Gaussian kernel row sums to at most
1e-12, computeConditionalProbabilities skips normalization and returns the
unnormalized kernel row unchanged (its self entry is zero); no error is
raised. The claim as stated says every returned probability is zero in
this regime; c6_counterexample refutes that, the row keeps its tiny
nonzero kernel values. -/
theorem c6_skip_normalization (M : JSMath) (distances : List ℚ) (sigma : ℚ)
    (i : ℕ) (h : (condUnnormRow M distances sigma i).sum ≤ 1e-12) :
    computeConditionalProbabilities M distances sigma i
      = condUnnormRow M distances sigma i ∧
    getv (computeConditionalProbabilities M distances sigma i) i = 0 := by
  have h1 : computeConditionalProbabilities M distances sigma i
      = condUnnormRow M distances sigma i := by
    simp only [computeConditionalProbabilities]
    rw [if_neg (not_lt.mpr h)]
  refine ⟨h1, ?_⟩
  rw [h1, condUnnormRow]
  rw [getv_mkRow]
  by_cases hi : i < distances.length <;> simp [hi]

/-- C6 counterexample: with every kernel value equal to 1e-13, the distance
row [0, 1] at center 0 has kernel sum 1e-13, below the 1e-12 normalization
guard, yet the returned row keeps the nonzero unnormalized value 1e-13 at
entry 1 instead of being all zero. -/
theorem c6_counterexample :
    (condUnnormRow tinyKernel [0, 1] 1 0).sum ≤ 1e-12 ∧
    getv (computeConditionalProbabilities tinyKernel [0, 1] 1 0) 1 ≠ 0 := by
  constructor
  · norm_num [condUnnormRow, mkRow, List.range_succ, getv, tinyKernel]
  · norm_num [computeConditionalProbabilities, condUnnormRow, mkRow,
      List.range_succ, getv, tinyKernel]

/-- C6 witness: the skip theorem applied to the concrete sub-guard row. -/
theorem c6_witness :
    (condUnnormRow tinyKernel [0, 1] 1 0).sum ≤ 1e-12 ∧
    (computeConditionalProbabilities tinyKernel [0, 1] 1 0
        = condUnnormRow tinyKernel [0, 1] 1 0 ∧
      getv (computeConditionalProbabilities tinyKernel [0, 1] 1 0) 0 = 0) :=
  ⟨by norm_num [condUnnormRow, mkRow, List.range_succ, getv, tinyKernel],
   c6_skip_normalization tinyKernel [0, 1] 1 0
     (by norm_num [condUnnormRow, mkRow, List.range_succ, getv, tinyKernel])⟩

/-- C5 (amended): both implementations produce the symmetrized entries
(P(j|i) + P(i|j)) / (2N) off the diagonal, mirrored so the result is
symmetric; the PrecomputedTSNE version then floors every entry (diagonal
included) at 1e-12, making every entry strictly positive, while the TSNE
class version applies no floor and keeps a zero diagonal. The claim as
stated asserts the floor and strict positivity for both implementations;
c5_counterexample refutes that for the TSNE class. -/
theorem c5_symmetrization (Pc : Mat) (n i j : ℕ) (hi : i < n) (hj : j < n)
    (hij : i ≠ j) :
    get2 (PrecomputedTSNE.symmetrizeP Pc n) i j
      = max ((get2 Pc i j + get2 Pc j i) / (2 * (n : ℚ))) 1e-12 ∧
    get2 (PrecomputedTSNE.symmetrizeP Pc n) i j
      = get2 (PrecomputedTSNE.symmetrizeP Pc n) j i ∧
    (∀ a b, a < n → b < n → (0 : ℚ) < get2 (PrecomputedTSNE.symmetrizeP Pc n) a b) ∧
    get2 (TSNE.symmetrizeP Pc n) i j
      = (get2 Pc i j + get2 Pc j i) / (2 * (n : ℚ)) ∧
    get2 (TSNE.symmetrizeP Pc n) i j = get2 (TSNE.symmetrizeP Pc n) j i ∧
    get2 (TSNE.symmetrizeP Pc n) i i = 0 := by
  refine ⟨?_, ?_, ?_, ?_, ?_, ?_⟩
  · simp [PrecomputedTSNE.symmetrizeP, PrecomputedTSNE.symmetrizeRaw,
      get2_mkMat, hi, hj, hij]
  · simp only [PrecomputedTSNE.symmetrizeP, PrecomputedTSNE.symmetrizeRaw,
      get2_mkMat]
    simp [hi, hj, hij, Ne.symm hij, add_comm]
  · intro a b ha hb
    have h1 : get2 (PrecomputedTSNE.symmetrizeP Pc n) a b
        = max (get2 (PrecomputedTSNE.symmetrizeRaw Pc n) a b) 1e-12 := by
      simp [PrecomputedTSNE.symmetrizeP, get2_mkMat, ha, hb]
    rw [h1]
    exact lt_of_lt_of_le (by norm_num) (le_max_right _ _)
  · simp [TSNE.symmetrizeP, get2_mkMat, hi, hj, hij]
  · simp only [TSNE.symmetrizeP, get2_mkMat]
    simp [hi, hj, hij, Ne.symm hij, add_comm]
  · by_cases hii : i < n <;> simp [TSNE.symmetrizeP, get2_mkMat, hii]

/-- C5 counterexample: TSNE symmetrization of the conditional matrix
[[0, 1], [1, 0]] for 2 points leaves the diagonal entry (0, 0) at 0, so
not every entry of its joint matrix is floored at 1e-12 or strictly
positive. -/
theorem c5_counterexample :
    get2 (TSNE.symmetrizeP [[0, 1], [1, 0]] 2) 0 0 = 0 ∧
    ¬ (0 : ℚ) < get2 (TSNE.symmetrizeP [[0, 1], [1, 0]] 2) 0 0 := by
  constructor
  · simp [TSNE.symmetrizeP, get2_mkMat]
  · simp [TSNE.symmetrizeP, get2_mkMat]

/-- C5 witness: the symmetrization theorem applied to the conditional
matrix [[0, 1], [1, 0]] at entry (0, 1). -/
theorem c5_witness :
    0 < 2 ∧ 1 < 2 ∧ 0 ≠ 1 ∧
    (get2 (PrecomputedTSNE.symmetrizeP [[0, 1], [1, 0]] 2) 0 1
      = max ((get2 [[0, 1], [1, 0]] 0 1 + get2 [[0, 1], [1, 0]] 1 0) / (2 * ((2 : ℕ) : ℚ))) 1e-12 ∧
    get2 (PrecomputedTSNE.symmetrizeP [[0, 1], [1, 0]] 2) 0 1
      = get2 (PrecomputedTSNE.symmetrizeP [[0, 1], [1, 0]] 2) 1 0 ∧
    (∀ a b, a < 2 → b < 2 →
      (0 : ℚ) < get2 (PrecomputedTSNE.symmetrizeP [[0, 1], [1, 0]] 2) a b) ∧
    get2 (TSNE.symmetrizeP [[0, 1], [1, 0]] 2) 0 1
      = (get2 [[0, 1], [1, 0]] 0 1 + get2 [[0, 1], [1, 0]] 1 0) / (2 * ((2 : ℕ) : ℚ)) ∧
    get2 (TSNE.symmetrizeP [[0, 1], [1, 0]] 2) 0 1
      = get2 (TSNE.symmetrizeP [[0, 1], [1, 0]] 2) 1 0 ∧
    get2 (TSNE.symmetrizeP [[0, 1], [1, 0]] 2) 0 0 = 0) :=
  ⟨by decide, by decide, by decide,
   c5_symmetrization [[0, 1], [1, 0]] 2 0 1 (by decide) (by decide) (by decide)⟩

/-- C7: the early-exaggeration round trip restores P exactly in both
implementations when no optimizer update intervenes: applying multiplies
every entry by the factor; PrecomputedTSNE removal copies back the
retained pre-exaggeration matrix (here the P argument of
removeEarlyExaggeration, which run sets to the deep copy P_original taken
before applying), and the TSNE class removal divides the factor back out,
which over exact arithmetic is an exact restore for any nonzero factor. -/
theorem c7_exaggeration_roundtrip (P : Mat) (n : ℕ) (factor : ℚ) (i j : ℕ)
    (hi : i < n) (hj : j < n) (hf : factor ≠ 0) :
    get2 (PrecomputedTSNE.applyEarlyExaggeration P n factor) i j
      = get2 P i j * factor ∧
    get2 (PrecomputedTSNE.removeEarlyExaggeration P n) i j = get2 P i j ∧
    get2 (TSNE.removeExaggeration (TSNE.applyExaggeration P n factor) n factor) i j
      = get2 P i j := by
  refine ⟨?_, ?_, ?_⟩
  · simp [PrecomputedTSNE.applyEarlyExaggeration, get2_mkMat, hi, hj]
  · simp [PrecomputedTSNE.removeEarlyExaggeration, get2_mkMat, hi, hj]
  · simp [TSNE.removeExaggeration, TSNE.applyExaggeration, get2_mkMat, hi, hj]
    exact mul_div_cancel_right₀ _ hf

/-- C7 witness: the round-trip theorem applied to a concrete 2 x 2 matrix
with the default exaggeration factor 4. -/
theorem c7_witness :
    0 < 2 ∧ 1 < 2 ∧ (4 : ℚ) ≠ 0 ∧
    (get2 (PrecomputedTSNE.applyEarlyExaggeration [[1, 2], [3, 5]] 2 4) 0 1
      = get2 [[1, 2], [3, 5]] 0 1 * 4 ∧
    get2 (PrecomputedTSNE.removeEarlyExaggeration [[1, 2], [3, 5]] 2) 0 1
      = get2 [[1, 2], [3, 5]] 0 1 ∧
    get2 (TSNE.removeExaggeration (TSNE.applyExaggeration [[1, 2], [3, 5]] 2 4) 2 4) 0 1
      = get2 [[1, 2], [3, 5]] 0 1) :=
  ⟨by decide, by decide, by norm_num,
   c7_exaggeration_roundtrip [[1, 2], [3, 5]] 2 4 0 1 (by decide) (by decide)
     (by norm_num)⟩

/-- C9: after PrecomputedTSNE symmetrization every diagonal entry equals
exactly 1e-12 (the floor applies to the zero diagonal as well), and the
KL-divergence computation is unaffected by diagonal values: two P matrices
of equal size agreeing off the diagonal give equal klDivergence against
any Q, because the i = j terms are skipped. -/
theorem c9_diagonal_and_kl (M : JSMath) (Pc : Mat) (n i : ℕ) (hi : i < n)
    (P P2 Q : Mat) (hlen : P.length = P2.length)
    (hoff : ∀ a b, a ≠ b → get2 P a b = get2 P2 a b) :
    get2 (PrecomputedTSNE.symmetrizeP Pc n) i i = 1e-12 ∧
    klDivergence M P Q = klDivergence M P2 Q := by
  constructor
  · have h1 : get2 (PrecomputedTSNE.symmetrizeP Pc n) i i
        = max (get2 (PrecomputedTSNE.symmetrizeRaw Pc n) i i) 1e-12 := by
      simp [PrecomputedTSNE.symmetrizeP, get2_mkMat, hi]
    have h2 : get2 (PrecomputedTSNE.symmetrizeRaw Pc n) i i = 0 := by
      simp [PrecomputedTSNE.symmetrizeRaw, get2_mkMat, hi]
    rw [h1, h2]
    exact max_eq_right (by norm_num)
  · simp only [klDivergence]
    rw [hlen]
    apply congrArg List.sum
    apply List.map_congr_left
    intro a _
    apply congrArg List.sum
    apply List.map_congr_left
    intro b _
    by_cases hab : a = b
    · simp [hab]
    · rw [hoff a b hab]

/-- C9 witness: the theorem applied to a concrete 2-point symmetrization
and a pair of matrices agreeing off the diagonal. -/
theorem c9_witness :
    0 < 2 ∧ ([[5, 2], [2, 5]] : Mat).length = ([[5, 2], [2, 5]] : Mat).length ∧
    (get2 (PrecomputedTSNE.symmetrizeP [[0, 1], [1, 0]] 2) 0 0 = 1e-12 ∧
    klDivergence zeroKernel [[5, 2], [2, 5]] [[0, 1], [1, 0]]
      = klDivergence zeroKernel [[5, 2], [2, 5]] [[0, 1], [1, 0]]) :=
  ⟨by decide, rfl,
   c9_diagonal_and_kl zeroKernel [[0, 1], [1, 0]] 2 0 (by decide)
     [[5, 2], [2, 5]] [[5, 2], [2, 5]] [[0, 1], [1, 0]] rfl
     (fun _ _ _ => rfl)⟩

/-- C4 (amended): PrecomputedTSNE updates an explicit velocity matrix with
velocity = momentum * velocity - learningRate * gradient under the
hardwired two-phase schedule (0.5 before iteration 250, 0.8 from 250 on),
adds the new velocity to every position, and then centers the embedding.
The TSNE class instead uses one constant momentum (default 0.8, no
schedule and no stored velocity) in the algebraically equivalent
position-difference form Ynew = Y - learningRate * gradient +
momentum * (Y - Yprev). The claim as stated asserts the two-phase 0.5/0.8
schedule for both engines; c4_counterexample refutes it for the TSNE
class. -/
theorem c4_momentum_update (learningRate : ℚ) (iteration n targetDim : ℕ)
    (velocity embedding gradient : Mat) (mom : ℚ) (Y Yprev : Mat) (i d : ℕ)
    (hi : i < n) (hd : d < targetDim) :
    PrecomputedTSNE.momentumAt iteration
      = (if iteration < 250 then (0.5 : ℚ) else 0.8) ∧
    get2 ((PrecomputedTSNE.updateEmbedding learningRate iteration velocity
        embedding gradient n targetDim).1) i d
      = PrecomputedTSNE.momentumAt iteration * get2 velocity i d
        - learningRate * get2 gradient i d ∧
    (PrecomputedTSNE.updateEmbedding learningRate iteration velocity embedding
        gradient n targetDim).2
      = PrecomputedTSNE.centerColumns
          (PrecomputedTSNE.addVelocity embedding
            ((PrecomputedTSNE.updateEmbedding learningRate iteration velocity
              embedding gradient n targetDim).1) n targetDim) n targetDim ∧
    get2 (PrecomputedTSNE.addVelocity embedding
        ((PrecomputedTSNE.updateEmbedding learningRate iteration velocity
          embedding gradient n targetDim).1) n targetDim) i d
      = get2 embedding i d
        + get2 ((PrecomputedTSNE.updateEmbedding learningRate iteration velocity
            embedding gradient n targetDim).1) i d ∧
    get2 (TSNE.updateEmbedding learningRate mom Y Yprev gradient n targetDim) i d
      = get2 Y i d - learningRate * get2 gradient i d
        + mom * (get2 Y i d - get2 Yprev i d) ∧
    TSNE.defaultMomentum = 0.8 := by
  refine ⟨rfl, ?_, rfl, ?_, ?_, rfl⟩
  · simp [PrecomputedTSNE.updateEmbedding, PrecomputedTSNE.velocityStep,
      get2_mkMat, hi, hd]
  · simp [PrecomputedTSNE.addVelocity, get2_mkMat, hi, hd]
  · simp [TSNE.updateEmbedding, get2_mkMat, hi, hd]

/-- C4 counterexample: at iteration 0 the claim requires the lower
momentum 0.5, giving updated position 1 + (0.5 * (1 - 0) - 200 * 0) = 3/2
from embedding [[1]], previous embedding [[0]] and zero gradient; the TSNE
class uses its constant default momentum 0.8 and produces 9/5 instead. -/
theorem c4_counterexample :
    get2 (TSNE.updateEmbedding 200 TSNE.defaultMomentum [[1]] [[0]] [[0]] 1 1) 0 0
      = 9 / 5 ∧
    (1 : ℚ) + (PrecomputedTSNE.momentumAt 0 * ((1 : ℚ) - 0) - 200 * 0) = 3 / 2 ∧
    (9 / 5 : ℚ) ≠ 3 / 2 := by
  refine ⟨?_, ?_, by norm_num⟩
  · have h : get2 (TSNE.updateEmbedding 200 TSNE.defaultMomentum
        [[1]] [[0]] [[0]] 1 1) 0 0
        = get2 [[(1 : ℚ)]] 0 0 - 200 * get2 [[(0 : ℚ)]] 0 0
          + TSNE.defaultMomentum * (get2 [[(1 : ℚ)]] 0 0 - get2 [[(0 : ℚ)]] 0 0) := by
      simp [TSNE.updateEmbedding, get2_mkMat]
    rw [h]
    norm_num [get2, getv, TSNE.defaultMomentum]
  · norm_num [PrecomputedTSNE.momentumAt, PrecomputedTSNE.momentum,
      PrecomputedTSNE.momentumSwitchIter]

/-- C4 witness: the update-rule theorem applied to concrete one-point
matrices at iteration 0. -/
theorem c4_witness :
    0 < 1 ∧ 0 < 1 ∧
    (PrecomputedTSNE.momentumAt 0 = (if 0 < 250 then (0.5 : ℚ) else 0.8) ∧
    get2 ((PrecomputedTSNE.updateEmbedding 200 0 [[2]] [[3]] [[4]] 1 1).1) 0 0
      = PrecomputedTSNE.momentumAt 0 * get2 [[2]] 0 0 - 200 * get2 [[4]] 0 0 ∧
    (PrecomputedTSNE.updateEmbedding 200 0 [[2]] [[3]] [[4]] 1 1).2
      = PrecomputedTSNE.centerColumns
          (PrecomputedTSNE.addVelocity [[3]]
            ((PrecomputedTSNE.updateEmbedding 200 0 [[2]] [[3]] [[4]] 1 1).1) 1 1) 1 1 ∧
    get2 (PrecomputedTSNE.addVelocity [[3]]
        ((PrecomputedTSNE.updateEmbedding 200 0 [[2]] [[3]] [[4]] 1 1).1) 1 1) 0 0
      = get2 [[3]] 0 0
        + get2 ((PrecomputedTSNE.updateEmbedding 200 0 [[2]] [[3]] [[4]] 1 1).1) 0 0 ∧
    get2 (TSNE.updateEmbedding 200 (4 / 5) [[1]] [[0]] [[4]] 1 1) 0 0
      = get2 [[1]] 0 0 - 200 * get2 [[4]] 0 0
        + 4 / 5 * (get2 [[1]] 0 0 - get2 [[0]] 0 0) ∧
    TSNE.defaultMomentum = 0.8) :=
  ⟨by decide, by decide,
   c4_momentum_update 200 0 1 1 [[2]] [[3]] [[4]] (4 / 5) [[1]] [[0]] 0 0
     (by decide) (by decide)⟩

/-- C3: findSigma maintains a bracket initialized to (1e-10, 1e10) with
initial guess sigma = 1 and runs at most 50 entropy iterations (the fuel
of the loop, the default maxIter); a loop iteration returns its current
sigma as soon as |entropy - log2(targetPerplexity)| < 1e-5; when the
entropy is not past tolerance, is too low, and the upper bound still holds
the 1e10 sentinel, the next guess is the doubled midpoint
((sigma + sigmaMax) / 2) * 2; and when the budget is exhausted the sigma
of the final iteration is returned, history intact, with no error. -/
theorem c3_findSigma_search (M : JSMath) (dm : Mat) (i : ℕ) (T : ℚ)
    (hT : 1 < T) (rh : Bool) (distances : List ℚ) (targetEntropy : ℚ)
    (fuel iter : ℕ) (sigmaMin sigmaMax sigma : ℚ) (hist : List (ℕ × ℚ × ℚ)) :
    findSigma M dm i T rh 50 1e-5
      = findSigmaGo M (dm.getD i []) i (M.log2 T) 1e-5 rh 50 0 1e-10 1e10 1 [] ∧
    (|shannonEntropy M (computeConditionalProbabilities M distances sigma i)
        - targetEntropy| < 1e-5 →
      findSigmaGo M distances i targetEntropy 1e-5 rh (fuel + 1) iter
          sigmaMin sigmaMax sigma hist
        = { sigma := sigma,
            P := computeConditionalProbabilities M distances sigma i,
            entropy := shannonEntropy M
              (computeConditionalProbabilities M distances sigma i),
            perplexity := entropyToPerplexity M (shannonEntropy M
              (computeConditionalProbabilities M distances sigma i)),
            history := if rh then hist ++ [(iter, sigma, entropyToPerplexity M
              (shannonEntropy M
                (computeConditionalProbabilities M distances sigma i)))]
              else hist }) ∧
    (¬ |shannonEntropy M (computeConditionalProbabilities M distances sigma i)
        - targetEntropy| < 1e-5 →
      shannonEntropy M (computeConditionalProbabilities M distances sigma i)
        - targetEntropy ≤ 0 →
      findSigmaGo M distances i targetEntropy 1e-5 rh (fuel + 1) iter
          sigmaMin 1e10 sigma hist
        = findSigmaGo M distances i targetEntropy 1e-5 rh fuel (iter + 1)
            sigma 1e10 (((sigma + 1e10) / 2) * 2)
            (if rh then hist ++ [(iter, sigma, entropyToPerplexity M
              (shannonEntropy M
                (computeConditionalProbabilities M distances sigma i)))]
              else hist)) ∧
    (findSigmaGo M distances i targetEntropy 1e-5 rh 0 iter
      sigmaMin sigmaMax sigma hist).sigma = sigma ∧
    (findSigmaGo M distances i targetEntropy 1e-5 rh 0 iter
      sigmaMin sigmaMax sigma hist).history = hist := by
  refine ⟨rfl, ?_, ?_, rfl, rfl⟩
  · intro h
    simp only [findSigmaGo]
    rw [if_pos h]
  · intro h1 h2
    simp only [findSigmaGo]
    rw [if_neg h1, if_neg (not_lt.mpr h2)]
    simp

/-- C3 witness: the search-structure theorem applied at a concrete
one-point row with target perplexity 2. -/
theorem c3_witness :
    (1 : ℚ) < 2 ∧
    (findSigma zeroKernel [[0]] 0 2 false 50 1e-5
      = findSigmaGo zeroKernel (([[0]] : Mat).getD 0 []) 0 (zeroKernel.log2 2)
          1e-5 false 50 0 1e-10 1e10 1 [] ∧
    (|shannonEntropy zeroKernel (computeConditionalProbabilities zeroKernel [0] 1 0)
        - 0| < 1e-5 →
      findSigmaGo zeroKernel [0] 0 0 1e-5 false (0 + 1) 0 1e-10 1e10 1 []
        = { sigma := 1,
            P := computeConditionalProbabilities zeroKernel [0] 1 0,
            entropy := shannonEntropy zeroKernel
              (computeConditionalProbabilities zeroKernel [0] 1 0),
            perplexity := entropyToPerplexity zeroKernel (shannonEntropy zeroKernel
              (computeConditionalProbabilities zeroKernel [0] 1 0)),
            history := if false then [] ++ [(0, 1, entropyToPerplexity zeroKernel
              (shannonEntropy zeroKernel
                (computeConditionalProbabilities zeroKernel [0] 1 0)))]
              else [] }) ∧
    (¬ |shannonEntropy zeroKernel (computeConditionalProbabilities zeroKernel [0] 1 0)
        - 0| < 1e-5 →
      shannonEntropy zeroKernel (computeConditionalProbabilities zeroKernel [0] 1 0)
        - 0 ≤ 0 →
      findSigmaGo zeroKernel [0] 0 0 1e-5 false (0 + 1) 0 1e-10 1e10 1 []
        = findSigmaGo zeroKernel [0] 0 0 1e-5 false 0 (0 + 1) 1 1e10
            (((1 + 1e10) / 2) * 2)
            (if false then [] ++ [(0, 1, entropyToPerplexity zeroKernel
              (shannonEntropy zeroKernel
                (computeConditionalProbabilities zeroKernel [0] 1 0)))]
              else [])) ∧
    (findSigmaGo zeroKernel [0] 0 0 1e-5 false 0 0 1e-10 1e10 1 []).sigma = 1 ∧
    (findSigmaGo zeroKernel [0] 0 0 1e-5 false 0 0 1e-10 1e10 1 []).history = []) :=
  ⟨by norm_num,
   c3_findSigma_search zeroKernel [[0]] 0 2 (by norm_num) false [0] 0 0 0
     1e-10 1e10 1 []⟩

/-- C1 (code bug evaluation): for the collinear points [[0], [1], [2]]
(squared-distance row 0 is [0, 1, 4]) with sigma = 1, the math-utils
computeConditionalProbabilities equals the specified Gaussian formula row
exactly (entry 1 is 2/3), but the PrecomputedTSNE conditional step applies
the kernel to the square of the already-squared distance entries and its
normalized entry (0, 1) is 6/7 instead: the engine contradicts the
formula documented in its own UI strings and used by its own sigma
search. -/
theorem c1_engine_kernel_mismatch :
    computeConditionalProbabilities rationalKernel
        ((computeDistanceMatrix [[0], [1], [2]]).getD 0 []) 1 0
      = specCondRow rationalKernel
        ((computeDistanceMatrix [[0], [1], [2]]).getD 0 []) 1 0 ∧
    getv (specCondRow rationalKernel
        ((computeDistanceMatrix [[0], [1], [2]]).getD 0 []) 1 0) 1 = 2 / 3 ∧
    get2 (PrecomputedTSNE.computeConditionalP rationalKernel
        (computeDistanceMatrix [[0], [1], [2]]) [1, 1, 1] 3) 0 1 = 6 / 7 ∧
    (6 / 7 : ℚ) ≠ 2 / 3 := by
  refine ⟨?_, ?_, ?_, by norm_num⟩
  · norm_num [computeConditionalProbabilities, condUnnormRow, specCondRow,
      computeDistanceMatrix, mkMat, mkRow, squaredEuclideanDistance,
      rationalKernel, getv, List.range_succ]
  · norm_num [specCondRow, computeDistanceMatrix, mkMat, mkRow,
      squaredEuclideanDistance, rationalKernel, getv, List.range_succ]
  · norm_num [PrecomputedTSNE.computeConditionalP, computeDistanceMatrix,
      mkMat, mkRow, squaredEuclideanDistance, rationalKernel, get2, getv,
      List.range_succ]

/-- C8: the PrecomputedTSNE run is deterministic given its inputs and the
initial-embedding draw, the only stochastic step: two runs with the same
input points, labels and configuration whose gaussian draw streams
produce the same initial embedding yield identical snapshot sequences,
identical cost histories and identical final embeddings. -/
theorem c8_determinism (M : JSMath) (cfg : PrecomputedTSNE.Cfg)
    (inputData : Mat) (labels : List ℤ) (r1 r2 : ℕ → ℚ)
    (h : PrecomputedTSNE.initEmbedding r1 inputData.length cfg.targetDim
       = PrecomputedTSNE.initEmbedding r2 inputData.length cfg.targetDim) :
    (PrecomputedTSNE.run M cfg inputData labels r1).snapshots
      = (PrecomputedTSNE.run M cfg inputData labels r2).snapshots ∧
    (PrecomputedTSNE.run M cfg inputData labels r1).costs
      = (PrecomputedTSNE.run M cfg inputData labels r2).costs ∧
    (PrecomputedTSNE.run M cfg inputData labels r1).embedding
      = (PrecomputedTSNE.run M cfg inputData labels r2).embedding := by
  unfold PrecomputedTSNE.run
  rw [h]
  exact ⟨rfl, rfl, rfl⟩

/-- C10: on a fresh instance, run records exactly 14 snapshots whose step
types appear in the fixed order of the phase sequence, with consecutive
stepId values 0 through 13. -/
theorem c10_snapshot_sequence (M : JSMath) (cfg : PrecomputedTSNE.Cfg)
    (inputData : Mat) (labels : List ℤ) (rand : ℕ → ℚ) (h : inputData ≠ []) :
    ((PrecomputedTSNE.run M cfg inputData labels rand).snapshots).map
        Snapshot.stepType
      = [StepType.intro, StepType.inputData, StepType.computeDistances,
         StepType.computeSigmas, StepType.computePConditional,
         StepType.symmetrizeP, StepType.earlyExaggeration,
         StepType.initEmbedding, StepType.computeQ, StepType.computeGradient,
         StepType.updateEmbedding, StepType.iterationProgress,
         StepType.removeExaggeration, StepType.finalResult] ∧
    ((PrecomputedTSNE.run M cfg inputData labels rand).snapshots).map
        Snapshot.stepId
      = List.range 14 ∧
    ((PrecomputedTSNE.run M cfg inputData labels rand).snapshots).length = 14 := by
  refine ⟨?_, ?_, ?_⟩ <;> rfl

/-- C8 witness: the determinism theorem applied to a one-point run with
equal draw streams. -/
theorem c8_witness :
    PrecomputedTSNE.initEmbedding (fun _ => 0) ([[0]] : Mat).length
        sampleCfg.targetDim
      = PrecomputedTSNE.initEmbedding (fun _ => 0) ([[0]] : Mat).length
        sampleCfg.targetDim ∧
    ((PrecomputedTSNE.run zeroKernel sampleCfg [[0]] [0] (fun _ => 0)).snapshots
      = (PrecomputedTSNE.run zeroKernel sampleCfg [[0]] [0] (fun _ => 0)).snapshots ∧
    (PrecomputedTSNE.run zeroKernel sampleCfg [[0]] [0] (fun _ => 0)).costs
      = (PrecomputedTSNE.run zeroKernel sampleCfg [[0]] [0] (fun _ => 0)).costs ∧
    (PrecomputedTSNE.run zeroKernel sampleCfg [[0]] [0] (fun _ => 0)).embedding
      = (PrecomputedTSNE.run zeroKernel sampleCfg [[0]] [0] (fun _ => 0)).embedding) :=
  ⟨rfl, c8_determinism zeroKernel sampleCfg [[0]] [0] (fun _ => 0) (fun _ => 0) rfl⟩

/-- C10 witness: the snapshot-sequence theorem applied to a concrete
one-point run. -/
theorem c10_witness :
    ([[0]] : Mat) ≠ [] ∧
    (((PrecomputedTSNE.run zeroKernel sampleCfg [[0]] [0] (fun _ => 0)).snapshots).map
        Snapshot.stepType
      = [StepType.intro, StepType.inputData, StepType.computeDistances,
         StepType.computeSigmas, StepType.computePConditional,
         StepType.symmetrizeP, StepType.earlyExaggeration,
         StepType.initEmbedding, StepType.computeQ, StepType.computeGradient,
         StepType.updateEmbedding, StepType.iterationProgress,
         StepType.removeExaggeration, StepType.finalResult] ∧
    (((PrecomputedTSNE.run zeroKernel sampleCfg [[0]] [0] (fun _ => 0)).snapshots).map
        Snapshot.stepId
      = List.range 14) ∧
    ((PrecomputedTSNE.run zeroKernel sampleCfg [[0]] [0] (fun _ => 0)).snapshots).length
      = 14) :=
  ⟨by simp, c10_snapshot_sequence zeroKernel sampleCfg [[0]] [0] (fun _ => 0)
    (by simp)⟩
